import Mathlib

/-!
Verification of the per-guild playback worker of `main.py` (lebotmusicien).

The development shallowly embeds the code: Python float values are carried
as rationals (`Rat`); the float arithmetic of the `increase`/`decrease`
commands (`+= 0.05` on IEEE binary64 doubles) is modelled by an explicit
round-to-nearest-even rounding function `fl64`, so their results are the
exact dyadic rationals the program computes.  The `asyncio.Queue` is a list
(put appends at the tail, get removes the head, which is exactly the
documented FIFO behaviour of `asyncio.Queue`), and each fallible
collaborator call (YTDL extraction, `channel.send`, `voice_client.play`,
`message.delete`) is an outcome chosen by an environment record.  An
uncaught Python exception inside the `player_loop` coroutine ends the
task; the embedding records this as a `crashed` status carrying the raise
site.
-/

namespace LeBotMusicien

/-- Dict returned by `YTDLSource.create_source` when `download=False`
(main.py line 80): the unresolved track descriptor that `play_` enqueues. -/
structure TrackData where
  webpage_url : String
  requester : String
  title : String
deriving DecidableEq, Repr

/-- Model of a `YTDLSource` (a resolved, playable stream with a volume
transformer): only the fields the orchestration logic reads. -/
structure YTDLSource where
  title : String
  requester : String
  volume : Rat
deriving DecidableEq, Repr

/-- An entry of the player queue: `player_loop` line 138 distinguishes a
plain dict (not a `YTDLSource`, so it must be regathered) from an already
resolved `YTDLSource`. -/
inductive QueueItem
  | dict (d : TrackData)
  | src (s : YTDLSource)
deriving DecidableEq, Repr

/-- The `title` key/attribute access `_["title"]` works on both shapes. -/
def itemTitle : QueueItem → String
  | QueueItem.dict d => d.title
  | QueueItem.src s => s.title

/-- Mutable state of one `MusicPlayer` (main.py lines 109-121): the queue,
the now-playing message handle, the guild volume and the current source. -/
structure MusicPlayer where
  queue : List QueueItem
  np : Option Nat
  volume : Rat
  current : Option YTDLSource
deriving DecidableEq, Repr

/-- State set by `MusicPlayer.__init__`: empty queue, no now-playing
message, volume `0.5`, no current track (main.py lines 115-120). -/
def newMusicPlayer : MusicPlayer :=
  { queue := [], np := none, volume := 1/2, current := none }

/-- Fate of the `self.np.delete()` call (line 162): succeeded, raised
`discord.HTTPException` (the only class the `except` catches), or raised
anything else (which would propagate). -/
inductive DeleteOutcome
  | ok
  | httpErr
  | otherErr
deriving DecidableEq, Repr

/-- Timeout of `queue.get` (line 133): 300 time units, five minutes. -/
def inactivityDeadline : Nat := 300

/-- Environment of one iteration of `player_loop`: how long `queue.get`
waited while the queue was empty, and the outcome of every collaborator
call the body makes. -/
structure LoopEnv where
  waited : Nat
  regatherOk : Bool
  errMsg : String
  errSendOk : Bool
  playOk : Bool
  npSendOk : Bool
  npMsgId : Nat
  deleteOutcome : DeleteOutcome
deriving DecidableEq, Repr

/-- Messages the loop posts to the player's originating channel. -/
inductive MsgEvent
  | errorReport (text : String)
  | nowPlaying (title requester : String)
deriving DecidableEq, Repr

/-- How one loop iteration ended: normally (the `while` continues), blocked
on an empty queue, `return self.destroy(...)` after the timeout, or an
uncaught exception that kills the coroutine (with its raise site). -/
inductive IterStatus
  | ok
  | blocked
  | destroyed
  | crashed (site : String)
deriving DecidableEq, Repr

/-- Result of one iteration: its status, the player state afterwards, the
dequeued item whose playback actually started (if any), the started source
with its volume applied, and the channel messages posted. -/
structure IterOut where
  status : IterStatus
  player : MusicPlayer
  started : Option QueueItem
  startedSrc : Option YTDLSource
  msgs : List MsgEvent
deriving DecidableEq, Repr

/-- Model of `YTDLSource.regather_stream` (lines 85-95): the requester is
copied from the dict, the title re-extracted for the same URL, and a fresh
stream handle built; the transformer starts at the default volume 1. -/
def regathered (d : TrackData) : YTDLSource :=
  { title := d.title, requester := d.requester, volume := 1 }

/-- Lines 148-164 of `player_loop`: apply the guild volume, set `current`,
start the transport (line 151, uncaught on failure), post the now-playing
message (line 152, uncaught on failure), wait for completion, clean up the
source, clear `current`, and delete the message swallowing only
`discord.HTTPException`. -/
def play_source (p : MusicPlayer) (s : YTDLSource) (item : QueueItem)
    (env : LoopEnv) : IterOut :=
  let s1 : YTDLSource := { s with volume := p.volume }
  let p1 : MusicPlayer := { p with current := some s1 }
  if env.playOk = false then
    { status := IterStatus.crashed "voice-client-play", player := p1,
      started := none, startedSrc := none, msgs := [] }
  else if env.npSendOk = false then
    { status := IterStatus.crashed "np-send", player := p1,
      started := some item, startedSrc := some s1, msgs := [] }
  else
    let p2 : MusicPlayer := { p1 with np := some env.npMsgId, current := none }
    match env.deleteOutcome with
    | DeleteOutcome.otherErr =>
      { status := IterStatus.crashed "np-delete", player := p2,
        started := some item, startedSrc := some s1,
        msgs := [MsgEvent.nowPlaying s1.title s1.requester] }
    | _ =>
      { status := IterStatus.ok, player := p2,
        started := some item, startedSrc := some s1,
        msgs := [MsgEvent.nowPlaying s1.title s1.requester] }

/-- One iteration of the `while not self.bot.is_closed()` body (lines
128-164).  An empty queue either times out after `inactivityDeadline`
(TimeoutError, line 135: `return self.destroy(...)`) or stays blocked in
`queue.get`; a non-empty queue yields its head immediately.  A dict head is
regathered first: on failure the error is reported and the body
`continue`s — unless that report itself raises. -/
def player_loop_iter (p : MusicPlayer) (env : LoopEnv) : IterOut :=
  match p.queue with
  | [] =>
    if inactivityDeadline ≤ env.waited then
      { status := IterStatus.destroyed, player := p,
        started := none, startedSrc := none, msgs := [] }
    else
      { status := IterStatus.blocked, player := p,
        started := none, startedSrc := none, msgs := [] }
  | item :: rest =>
    let p1 : MusicPlayer := { p with queue := rest }
    match item with
    | QueueItem.dict d =>
      if env.regatherOk then
        play_source p1 (regathered d) item env
      else if env.errSendOk then
        { status := IterStatus.ok, player := p1, started := none,
          startedSrc := none, msgs := [MsgEvent.errorReport env.errMsg] }
      else
        { status := IterStatus.crashed "error-report-send", player := p1,
          started := none, startedSrc := none, msgs := [] }
    | QueueItem.src s =>
      play_source p1 s item env

/-- Status of a whole run of the loop. -/
inductive RunStatus
  | alive
  | destroyed
  | crashed (site : String)
deriving DecidableEq, Repr

/-- Observable outcome of running the loop: final player state, status, the
items started in order, the messages posted in order, and how many times
`self.destroy` fired. -/
structure GuildRun where
  player : MusicPlayer
  status : RunStatus
  started : List QueueItem
  msgs : List MsgEvent
  destroys : Nat
deriving DecidableEq, Repr

/-- Run the loop through a list of per-iteration environments.  `return`
(timeout) and an uncaught exception end the coroutine, so no later
environment is consumed; a blocked iteration means the queue stayed empty
within the deadline, leaving the loop suspended in `queue.get`. -/
def player_loop_run (p : MusicPlayer) : List LoopEnv → GuildRun
  | [] => { player := p, status := RunStatus.alive, started := [], msgs := [], destroys := 0 }
  | env :: rest =>
    let o := player_loop_iter p env
    match o.status with
    | IterStatus.ok =>
      let r := player_loop_run o.player rest
      { player := r.player, status := r.status,
        started := o.started.toList ++ r.started,
        msgs := o.msgs ++ r.msgs, destroys := r.destroys }
    | IterStatus.blocked =>
      { player := p, status := RunStatus.alive, started := [], msgs := [], destroys := 0 }
    | IterStatus.destroyed =>
      { player := o.player, status := RunStatus.destroyed, started := [],
        msgs := o.msgs, destroys := 1 }
    | IterStatus.crashed w =>
      { player := o.player, status := RunStatus.crashed w,
        started := o.started.toList, msgs := o.msgs, destroys := 0 }

/-- Interleaving of producer and consumer actions on one guild player: a
`play_` command putting an item at the queue tail (line 282), or the loop
completing one iteration. -/
inductive GuildEvent
  | put (item : QueueItem)
  | iter (env : LoopEnv)
deriving DecidableEq, Repr

/-- Items enqueued over a trace, in order. -/
def putsOf : List GuildEvent → List QueueItem
  | [] => []
  | GuildEvent.put i :: r => i :: putsOf r
  | GuildEvent.iter _ :: r => putsOf r

/-- Every loop iteration of the trace resolves its track successfully. -/
def allRegatherOk : List GuildEvent → Bool
  | [] => true
  | GuildEvent.put _ :: r => allRegatherOk r
  | GuildEvent.iter env :: r => env.regatherOk && allRegatherOk r

/-- Run a mixed trace of puts and loop iterations against a player. -/
def runEvents (p : MusicPlayer) : List GuildEvent → GuildRun
  | [] => { player := p, status := RunStatus.alive, started := [], msgs := [], destroys := 0 }
  | GuildEvent.put i :: rest =>
    runEvents { p with queue := p.queue ++ [i] } rest
  | GuildEvent.iter env :: rest =>
    let o := player_loop_iter p env
    match o.status with
    | IterStatus.ok =>
      let r := runEvents o.player rest
      { player := r.player, status := r.status,
        started := o.started.toList ++ r.started,
        msgs := o.msgs ++ r.msgs, destroys := r.destroys }
    | IterStatus.blocked => runEvents p rest
    | IterStatus.destroyed =>
      { player := o.player, status := RunStatus.destroyed, started := [],
        msgs := o.msgs, destroys := 1 }
    | IterStatus.crashed w =>
      { player := o.player, status := RunStatus.crashed w,
        started := o.started.toList, msgs := o.msgs, destroys := 0 }

/-- One `MusicPlayer` instance: `instId` is the object identity, so equal
ids mean the same live player (and the same `player_loop` task, since the
constructor spawns exactly one task). -/
structure PlayerInst where
  instId : Nat
  st : MusicPlayer
deriving DecidableEq, Repr

/-- The `Music` cog: the `self.players` registry (guild id to player, a
Python dict with unique keys) plus a counter to mint instance ids. -/
structure Cog where
  players : List (Nat × PlayerInst)
  nextInstId : Nat
deriving DecidableEq, Repr

/-- Model of `Music.get_player` (lines 211-219): return the registered
player or construct a fresh `MusicPlayer` (spawning its loop) and register
it.  The function contains no await point, so under asyncio it executes
atomically; any set of concurrent callers is a sequence of calls. -/
def get_player (cog : Cog) (g : Nat) : PlayerInst × Cog :=
  match cog.players.lookup g with
  | some p => (p, cog)
  | none =>
    let p : PlayerInst := { instId := cog.nextInstId, st := newMusicPlayer }
    (p, { players := (g, p) :: cog.players, nextInstId := cog.nextInstId + 1 })

/-- Replace the registered player of guild `g` (the Python code mutates the
object in place; the embedding rewrites the registry binding). -/
def setPlayer (cog : Cog) (g : Nat) (p : PlayerInst) : Cog :=
  { cog with players := cog.players.map (fun e => if e.1 = g then (g, p) else e) }

/-- Iterate `get_player` for the same guild, collecting returned players. -/
def get_player_iter (cog : Cog) (g : Nat) : Nat → List PlayerInst × Cog
  | 0 => ([], cog)
  | Nat.succ n =>
    let o := get_player cog g
    let r := get_player_iter o.2 g n
    (o.1 :: r.1, r.2)

/-- Model of the voice client as the transport reports it (`ctx.voice_client`):
channel, connectivity, `is_playing()`, `is_paused()`, and `source`.  In
discord.py a paused player reports `is_playing() = false` while
`is_paused() = true`. -/
structure VoiceClient where
  channel : Nat
  connected : Bool
  playing : Bool
  paused : Bool
  source : Option YTDLSource
deriving DecidableEq, Repr

/-- The slice of a command `ctx` the cog reads: guild id, author, the
author's voice channel if any, and the guild's voice client if any. -/
structure Ctx where
  guildId : Nat
  author : String
  authorVoiceChannel : Option Nat
  voiceClient : Option VoiceClient
deriving DecidableEq, Repr

/-- Replies a command sends to the text channel. -/
inductive Reply
  | msg (text : String)
  | embed (title : String) (lines : List String)
deriving DecidableEq, Repr

/-- Calls a command issues against the voice transport. -/
inductive TransportOp
  | connect (channel : Nat)
  | move (channel : Nat)
  | pauseOp
  | resumeOp
  | stopOp
  | disconnect
deriving DecidableEq, Repr

/-- Result of one command invocation: registry afterwards, context
afterwards (the voice client may have changed), replies sent, transport
calls issued, and the exception that escaped the handler, if any. -/
structure CmdOut where
  cog : Cog
  ctx : Ctx
  replies : List Reply
  ops : List TransportOp
  raised : Option String
deriving DecidableEq, Repr

/-- Reply texts used by the commands (formatting stripped). -/
def notPlayingText : String := "I am currently not playing anything!"

def notConnectedText : String := "I am not connected to voice!"

def notInVoiceText : String :=
  "You are not connected to a voice channel. Please join a voice channel before invoking this command."

def volumeRangeText : String := "Please enter a value between 1 and 100."

def connectedText (channel : Nat) : String :=
  "Connected to: " ++ toString channel

def addedText (title : String) : String :=
  "Added " ++ title ++ " to the Queue."

def setVolumeText (author : String) : String :=
  author ++ ": Set the volume"

def increasedText (author : String) : String :=
  author ++ ": Increased the volume by 5%"

def decreasedText (author : String) : String :=
  author ++ ": Decreased the volume by 5%"

def pausedText (author : String) : String := author ++ ": Paused the song!"

def resumedText (author : String) : String := author ++ ": Resumed the song!"

def skippedText (author : String) : String := author ++ ": Skipped the song!"

/-- Model of `Music.cleanup` (lines 180-189): disconnect the voice client
if there is one (`AttributeError` on `None` is swallowed), then delete the
registry entry (`KeyError` on a missing key is swallowed, so removal is
idempotent).  A dict's keys are unique, so `del` equals filtering the
binding out. -/
def cleanup (cog : Cog) (vc : Option VoiceClient) (g : Nat) :
    Cog × Option VoiceClient × List TransportOp :=
  let ops := match vc with
    | some _ => [TransportOp.disconnect]
    | none => []
  ({ cog with players := cog.players.filter (fun e => !(e.1 == g)) }, none, ops)

/-- Model of `Music.connect_` (lines 221-255): pick the argument channel or
the author's; with no channel, reply and return.  With an existing voice
client: same channel is a silent no-op, otherwise move (a timeout raises
`VoiceConnectionError`).  Otherwise connect (a timeout raises).  The
registry is never touched. -/
def connect_ (cog : Cog) (ctx : Ctx) (channelArg : Option Nat)
    (moveOk connectOk : Bool) : CmdOut :=
  match channelArg.orElse (fun _ => ctx.authorVoiceChannel) with
  | none =>
    { cog := cog, ctx := ctx, replies := [Reply.msg notInVoiceText], ops := [], raised := none }
  | some ch =>
    match ctx.voiceClient with
    | some vc =>
      if vc.channel = ch then
        { cog := cog, ctx := ctx, replies := [], ops := [], raised := none }
      else if moveOk then
        { cog := cog, ctx := { ctx with voiceClient := some { vc with channel := ch } },
          replies := [Reply.msg (connectedText ch)], ops := [TransportOp.move ch],
          raised := none }
      else
        { cog := cog, ctx := ctx, replies := [], ops := [],
          raised := some "VoiceConnectionError" }
    | none =>
      if connectOk then
        let vcNew : VoiceClient :=
          { channel := ch, connected := true, playing := false,
            paused := false, source := none }
        { cog := cog,
          ctx := { ctx with voiceClient := some vcNew },
          replies := [Reply.msg (connectedText ch)], ops := [TransportOp.connect ch],
          raised := none }
      else
        { cog := cog, ctx := ctx, replies := [], ops := [],
          raised := some "VoiceConnectionError" }

/-- Outcome of the YTDL extraction inside `create_source`: the metadata of
the first entry, or a raised extractor error. -/
structure PlayEnv where
  extractOk : Bool
  track : TrackData
deriving DecidableEq, Repr

/-- Model of `Music.play_` (lines 257-282): auto-connect when there is no
voice client (an exception from `connect_` propagates and aborts the
command), then `get_player` — creating the player happens BEFORE the YTDL
extraction — then `create_source` (its reply, or its raised error), then
`queue.put` of the unresolved dict with `requester := ctx.author`. -/
def play_ (cog : Cog) (ctx : Ctx) (penv : PlayEnv) (moveOk connectOk : Bool) : CmdOut :=
  let c0 : CmdOut :=
    match ctx.voiceClient with
    | none => connect_ cog ctx none moveOk connectOk
    | some _ => { cog := cog, ctx := ctx, replies := [], ops := [], raised := none }
  match c0.raised with
  | some _ => c0
  | none =>
    let gp := get_player c0.cog c0.ctx.guildId
    if penv.extractOk then
      let d : TrackData :=
        { webpage_url := penv.track.webpage_url, requester := ctx.author,
          title := penv.track.title }
      let p1 : PlayerInst :=
        { gp.1 with st := { gp.1.st with queue := gp.1.st.queue ++ [QueueItem.dict d] } }
      { cog := setPlayer gp.2 c0.ctx.guildId p1, ctx := c0.ctx,
        replies := c0.replies ++ [Reply.msg (addedText penv.track.title)],
        ops := c0.ops, raised := none }
    else
      { cog := gp.2, ctx := c0.ctx, replies := c0.replies, ops := c0.ops,
        raised := some "DownloadError" }

/-- Model of `Music.pause_` (lines 284-295): without a voice client or with
`is_playing()` false, reply that nothing is playing; if already paused,
return silently; otherwise pause the transport and reply.  After `pause()`
the transport reports paused and not playing. -/
def pause_ (cog : Cog) (ctx : Ctx) : CmdOut :=
  match ctx.voiceClient with
  | none =>
    { cog := cog, ctx := ctx, replies := [Reply.msg notPlayingText], ops := [], raised := none }
  | some vc =>
    if vc.playing = false then
      { cog := cog, ctx := ctx, replies := [Reply.msg notPlayingText], ops := [], raised := none }
    else if vc.paused then
      { cog := cog, ctx := ctx, replies := [], ops := [], raised := none }
    else
      { cog := cog,
        ctx := { ctx with voiceClient := some { vc with paused := true, playing := false } },
        replies := [Reply.msg (pausedText ctx.author)], ops := [TransportOp.pauseOp],
        raised := none }

/-- Model of `Music.resume_` (lines 297-308): without a connected voice
client, reply that nothing is playing; if not paused, return silently;
otherwise resume and reply. -/
def resume_ (cog : Cog) (ctx : Ctx) : CmdOut :=
  match ctx.voiceClient with
  | none =>
    { cog := cog, ctx := ctx, replies := [Reply.msg notPlayingText], ops := [], raised := none }
  | some vc =>
    if vc.connected = false then
      { cog := cog, ctx := ctx, replies := [Reply.msg notPlayingText], ops := [], raised := none }
    else if vc.paused = false then
      { cog := cog, ctx := ctx, replies := [], ops := [], raised := none }
    else
      { cog := cog,
        ctx := { ctx with voiceClient := some { vc with paused := false, playing := true } },
        replies := [Reply.msg (resumedText ctx.author)], ops := [TransportOp.resumeOp],
        raised := none }

/-- Model of `Music.skip_` (lines 310-324): guard on connection; when
neither paused nor playing, return silently; otherwise `vc.stop()` and
reply. -/
def skip_ (cog : Cog) (ctx : Ctx) : CmdOut :=
  match ctx.voiceClient with
  | none =>
    { cog := cog, ctx := ctx, replies := [Reply.msg notPlayingText], ops := [], raised := none }
  | some vc =>
    if vc.connected = false then
      { cog := cog, ctx := ctx, replies := [Reply.msg notPlayingText], ops := [], raised := none }
    else if vc.paused = false && vc.playing = false then
      { cog := cog, ctx := ctx, replies := [], ops := [], raised := none }
    else
      { cog := cog,
        ctx := { ctx with voiceClient := some { vc with playing := false, paused := false } },
        replies := [Reply.msg (skippedText ctx.author)], ops := [TransportOp.stopOp],
        raised := none }

/-- Model of `Music.queue_info` (lines 326-344): guard on connection, then
`get_player` (which CREATES the player when absent), then either the empty
reply or an embed with up to five head titles, read without dequeuing. -/
def queue_info (cog : Cog) (ctx : Ctx) : CmdOut :=
  match ctx.voiceClient with
  | none =>
    { cog := cog, ctx := ctx, replies := [Reply.msg notConnectedText], ops := [], raised := none }
  | some vc =>
    if vc.connected = false then
      { cog := cog, ctx := ctx, replies := [Reply.msg notConnectedText], ops := [], raised := none }
    else
      let gp := get_player cog ctx.guildId
      if gp.1.st.queue.isEmpty then
        { cog := gp.2, ctx := ctx,
          replies := [Reply.msg "There are currently no more queued songs."],
          ops := [], raised := none }
      else
        { cog := gp.2, ctx := ctx,
          replies := [Reply.embed "Upcoming" ((gp.1.st.queue.take 5).map itemTitle)],
          ops := [], raised := none }

/-- Model of `Music.now_playing_` (lines 346-365): guard on connection,
`get_player` (creates when absent), nothing-playing reply when `current`
is `None`; otherwise delete the old now-playing message (HTTPException
swallowed, anything else propagates) and post a new one from `vc.source`
(a missing source raises `AttributeError`). -/
def now_playing_ (cog : Cog) (ctx : Ctx) (delOut : DeleteOutcome) (newNpId : Nat) : CmdOut :=
  match ctx.voiceClient with
  | none =>
    { cog := cog, ctx := ctx, replies := [Reply.msg notConnectedText], ops := [], raised := none }
  | some vc =>
    if vc.connected = false then
      { cog := cog, ctx := ctx, replies := [Reply.msg notConnectedText], ops := [], raised := none }
    else
      let gp := get_player cog ctx.guildId
      match gp.1.st.current with
      | none =>
        { cog := gp.2, ctx := ctx, replies := [Reply.msg notPlayingText], ops := [], raised := none }
      | some _ =>
        match delOut with
        | DeleteOutcome.otherErr =>
          { cog := gp.2, ctx := ctx, replies := [], ops := [], raised := some "delete-error" }
        | _ =>
          match vc.source with
          | none =>
            { cog := gp.2, ctx := ctx, replies := [], ops := [], raised := some "AttributeError" }
          | some s =>
            let p1 : PlayerInst := { gp.1 with st := { gp.1.st with np := some newNpId } }
            { cog := setPlayer gp.2 ctx.guildId p1, ctx := ctx,
              replies := [Reply.msg ("Now Playing: " ++ s.title ++ " requested by " ++ s.requester)],
              ops := [], raised := none }

/-- Model of `Music.change_volume` (lines 367-390): guard on connection;
reject unless `0 < vol < 101` (note: strictly below 101, a float check);
otherwise `get_player` (creates when absent), set the live source's volume
to `vol / 100` when a source exists, store `vol / 100` as the guild
default, and reply. -/
def change_volume (cog : Cog) (ctx : Ctx) (vol : Rat) : CmdOut :=
  match ctx.voiceClient with
  | none =>
    { cog := cog, ctx := ctx, replies := [Reply.msg notConnectedText], ops := [], raised := none }
  | some vc =>
    if vc.connected = false then
      { cog := cog, ctx := ctx, replies := [Reply.msg notConnectedText], ops := [], raised := none }
    else if 0 < vol ∧ vol < 101 then
      let gp := get_player cog ctx.guildId
      let vc1 : VoiceClient :=
        match vc.source with
        | some s => { vc with source := some { s with volume := vol / 100 } }
        | none => vc
      let p1 : PlayerInst := { gp.1 with st := { gp.1.st with volume := vol / 100 } }
      { cog := setPlayer gp.2 ctx.guildId p1,
        ctx := { ctx with voiceClient := some vc1 },
        replies := [Reply.msg (setVolumeText ctx.author)], ops := [], raised := none }
    else
      { cog := cog, ctx := ctx, replies := [Reply.msg volumeRangeText], ops := [], raised := none }

/-- Power of two as a rational, structurally recursive. -/
def pow2Nat : Nat → ℚ
  | 0 => 1
  | Nat.succ n => 2 * pow2Nat n

/-- Integer power of two as a rational. -/
def pow2 : ℤ → ℚ
  | Int.ofNat n => pow2Nat n
  | Int.negSucc n => 1 / pow2Nat (n + 1)

/-- Floor of a rational (the denominator is positive, so floored integer
division of the numerator gives the floor). -/
def ratFloor (x : ℚ) : ℤ := Int.fdiv x.num (x.den : ℤ)

/-- Round a rational to the nearest integer, ties to even — the IEEE 754
default rounding mode. -/
def rne (x : ℚ) : ℤ :=
  let n := ratFloor x
  let frac := x - (n : ℚ)
  if frac < 1/2 then n
  else if 1/2 < frac then n + 1
  else if n % 2 = 0 then n
  else n + 1

/-- Binade search: returns k with x / 2^k in [1, 2) for positive x, by
doubling/halving; the fuel (any bound on the number of steps, here
numerator plus denominator) makes the recursion structural. -/
def binadeAux : Nat → ℚ → ℤ → ℤ
  | 0, _, k => k
  | Nat.succ fuel, x, k =>
    if x < 1 then binadeAux fuel (x * 2) (k - 1)
    else if 2 ≤ x then binadeAux fuel (x / 2) (k + 1)
    else k

/-- Binade exponent of a positive rational: k with x / 2^k in [1, 2). -/
def binade (x : ℚ) : ℤ := binadeAux (x.num.natAbs + x.den) x 0

/-- Rounding of a positive rational into the IEEE binary64 grid: the
doubles of the binade [2^k, 2^(k+1)) are the multiples of 2^(k-52), so the
value is scaled by the unit in the last place, rounded to the nearest
integer (ties to even) and scaled back. -/
def fl64pos (x : ℚ) : ℚ :=
  let u := pow2 (binade x - 52)
  (rne (x / u) : ℚ) * u

/-- Round a rational to the nearest IEEE binary64 double (round to
nearest, ties to even).  Overflow and subnormals are not modelled — the
volume arithmetic stays far inside the normal range. -/
def fl64 (x : ℚ) : ℚ :=
  if x = 0 then 0
  else if x < 0 then -fl64pos (-x)
  else fl64pos x

/-- The Python literal `0.05` as the program stores it: the binary64
double nearest 1/20, namely 3602879701896397 / 2^56. -/
def float005 : ℚ := fl64 (1/20)

/-- IEEE binary64 addition: the exact sum, correctly rounded. -/
def floatAdd (a b : ℚ) : ℚ := fl64 (a + b)

/-- IEEE binary64 subtraction: the exact difference, correctly rounded. -/
def floatSub (a b : ℚ) : ℚ := fl64 (a - b)

/-- Model of `Music.increase_volume` (lines 392-405): guard on connection,
`get_player`, add the double `0.05` (binary64 addition, rounding to
nearest-even) to the live source volume when present and to the stored
guild volume; no clamping anywhere. -/
def increase_volume (cog : Cog) (ctx : Ctx) : CmdOut :=
  match ctx.voiceClient with
  | none =>
    { cog := cog, ctx := ctx, replies := [Reply.msg notConnectedText], ops := [], raised := none }
  | some vc =>
    if vc.connected = false then
      { cog := cog, ctx := ctx, replies := [Reply.msg notConnectedText], ops := [], raised := none }
    else
      let gp := get_player cog ctx.guildId
      let vc1 : VoiceClient :=
        match vc.source with
        | some s => { vc with source := some { s with volume := floatAdd s.volume float005 } }
        | none => vc
      let p1 : PlayerInst :=
        { gp.1 with st := { gp.1.st with volume := floatAdd gp.1.st.volume float005 } }
      { cog := setPlayer gp.2 ctx.guildId p1,
        ctx := { ctx with voiceClient := some vc1 },
        replies := [Reply.msg (increasedText ctx.author)], ops := [], raised := none }

/-- Model of `Music.decrease_volume` (lines 407-420): symmetric to
`increase_volume`, subtracting the double `0.05` with binary64 rounding. -/
def decrease_volume (cog : Cog) (ctx : Ctx) : CmdOut :=
  match ctx.voiceClient with
  | none =>
    { cog := cog, ctx := ctx, replies := [Reply.msg notConnectedText], ops := [], raised := none }
  | some vc =>
    if vc.connected = false then
      { cog := cog, ctx := ctx, replies := [Reply.msg notConnectedText], ops := [], raised := none }
    else
      let gp := get_player cog ctx.guildId
      let vc1 : VoiceClient :=
        match vc.source with
        | some s => { vc with source := some { s with volume := floatSub s.volume float005 } }
        | none => vc
      let p1 : PlayerInst :=
        { gp.1 with st := { gp.1.st with volume := floatSub gp.1.st.volume float005 } }
      { cog := setPlayer gp.2 ctx.guildId p1,
        ctx := { ctx with voiceClient := some vc1 },
        replies := [Reply.msg (decreasedText ctx.author)], ops := [], raised := none }

/-- Model of `Music.stop_` (lines 422-434): guard on connection, then
`cleanup` — never `get_player`. -/
def stop_ (cog : Cog) (ctx : Ctx) : CmdOut :=
  match ctx.voiceClient with
  | none =>
    { cog := cog, ctx := ctx, replies := [Reply.msg notPlayingText], ops := [], raised := none }
  | some vc =>
    if vc.connected = false then
      { cog := cog, ctx := ctx, replies := [Reply.msg notPlayingText], ops := [], raised := none }
    else
      let c := cleanup cog (some vc) ctx.guildId
      { cog := c.1, ctx := { ctx with voiceClient := c.2.1 }, replies := [],
        ops := c.2.2, raised := none }

/-- Volume the registry stores for guild `g`, if any. -/
def storedVolume (cog : Cog) (g : Nat) : Option Rat :=
  (cog.players.lookup g).map (fun p => p.st.volume)

/-- Volume of the live stream as seen through the context, if playing. -/
def liveSourceVolume (ctx : Ctx) : Option Rat :=
  match ctx.voiceClient with
  | none => none
  | some vc =>
    match vc.source with
    | none => none
    | some s => some s.volume

section RegistryLemmas

/-- Looking up a registered guild returns it and leaves the registry
untouched. -/
theorem get_player_of_found {cog : Cog} {g : Nat} {q : PlayerInst}
    (h : cog.players.lookup g = some q) : get_player cog g = (q, cog) := by
  simp [get_player, h]

/-- Iterating `get_player` over a registered guild is the identity. -/
theorem get_player_iter_found {g : Nat} {q : PlayerInst} :
    ∀ (n : Nat) (cog : Cog), cog.players.lookup g = some q →
      get_player_iter cog g n = (List.replicate n q, cog) := by
  intro n
  induction n with
  | zero => intro cog h; simp [get_player_iter]
  | succ m ih =>
    intro cog h
    simp [get_player_iter, get_player_of_found h, ih cog h, List.replicate_succ]

end RegistryLemmas

/-- C5: for every guild_id, any number of `get_player` calls starting from
a registry without that guild yields exactly one live player: every call
returns the instance minted by the first one, the registry afterwards maps
the guild to that single instance, and the instance counter advanced by
exactly one, i.e. exactly one `MusicPlayer` (and hence one `player_loop`
task) was constructed.  `get_player` contains no await point, so concurrent
asyncio callers execute it as a sequence of atomic calls. -/
theorem C5_get_player_exactly_once (cog : Cog) (g : Nat) (n : Nat)
    (h0 : cog.players.lookup g = none) (h1 : 0 < n) :
    (get_player_iter cog g n).1
        = List.replicate n { instId := cog.nextInstId, st := newMusicPlayer }
      ∧ (get_player_iter cog g n).2.players.lookup g
        = some { instId := cog.nextInstId, st := newMusicPlayer }
      ∧ (get_player_iter cog g n).2.nextInstId = cog.nextInstId + 1 := by
  obtain ⟨m, rfl⟩ : ∃ m, n = m + 1 := ⟨n - 1, (Nat.succ_pred_eq_of_pos h1).symm⟩
  have hcreate : get_player cog g =
      ({ instId := cog.nextInstId, st := newMusicPlayer },
       { players := (g, { instId := cog.nextInstId, st := newMusicPlayer }) :: cog.players,
         nextInstId := cog.nextInstId + 1 }) := by
    simp [get_player, h0]
  have hfound :
      (({ players := (g, { instId := cog.nextInstId, st := newMusicPlayer }) :: cog.players,
          nextInstId := cog.nextInstId + 1 } : Cog)).players.lookup g
        = some { instId := cog.nextInstId, st := newMusicPlayer } := by
    simp [List.lookup]
  refine ⟨?_, ?_, ?_⟩ <;>
    simp [get_player_iter, hcreate, get_player_iter_found m _ hfound, hfound,
      List.replicate_succ]

/-- Witness for C5 at a concrete input: three calls for guild 1 on an empty
registry all return instance 0 and only one instance is created. -/
theorem C5_get_player_exactly_once_witness :
    (({ players := [], nextInstId := 0 } : Cog)).players.lookup 1 = none
      ∧ 0 < 3
      ∧ ((get_player_iter { players := [], nextInstId := 0 } 1 3).1
          = List.replicate 3 { instId := 0, st := newMusicPlayer }
        ∧ (get_player_iter { players := [], nextInstId := 0 } 1 3).2.players.lookup 1
          = some { instId := 0, st := newMusicPlayer }
        ∧ (get_player_iter { players := [], nextInstId := 0 } 1 3).2.nextInstId = 0 + 1) :=
  ⟨by decide, by decide,
    C5_get_player_exactly_once { players := [], nextInstId := 0 } 1 3 (by decide) (by decide)⟩

section LoopLemmas

attribute [local semireducible] Rat.add Rat.mul Rat.inv Rat.sub

/-- Invariant behind the FIFO guarantee: over any interleaving of enqueues
and loop iterations in which every resolution succeeds, the sequence of
started items is a prefix of the initial queue followed by the enqueued
items, in order. -/
theorem runEvents_fifo :
    ∀ (evts : List GuildEvent) (p : MusicPlayer), allRegatherOk evts = true →
      (runEvents p evts).started <+: p.queue ++ putsOf evts := by
  intro evts
  induction evts with
  | nil => intro p _; simp [runEvents, putsOf]
  | cons e rest ih =>
    intro p h
    cases e with
    | put i =>
      have h' : allRegatherOk rest = true := by simpa [allRegatherOk] using h
      have hnext := ih { p with queue := p.queue ++ [i] } h'
      simpa [runEvents, putsOf, List.append_assoc] using hnext
    | iter env =>
      have hr : env.regatherOk = true := by
        have h2 := h; simp [allRegatherOk] at h2; exact h2.1
      have h' : allRegatherOk rest = true := by
        have h2 := h; simp [allRegatherOk] at h2; exact h2.2
      obtain ⟨q, np, vol, cur⟩ := p
      cases q with
      | nil =>
        by_cases ht : inactivityDeadline ≤ env.waited
        · simp [runEvents, player_loop_iter, ht]
        · simpa [runEvents, player_loop_iter, ht, putsOf] using ih _ h'
      | cons item q' =>
        cases item with
        | dict d =>
          cases hpo : env.playOk with
          | false =>
            simp [runEvents, player_loop_iter, play_source, hr, hpo]
          | true =>
            cases hnp : env.npSendOk with
            | false =>
              simp [runEvents, player_loop_iter, play_source, hr, hpo, hnp, putsOf]
            | true =>
              cases hdo : env.deleteOutcome with
              | otherErr =>
                simp [runEvents, player_loop_iter, play_source, hr, hpo, hnp, hdo, putsOf]
              | ok =>
                simp [runEvents, player_loop_iter, play_source, hr, hpo, hnp, hdo, putsOf]
                exact ih _ h'
              | httpErr =>
                simp [runEvents, player_loop_iter, play_source, hr, hpo, hnp, hdo, putsOf]
                exact ih _ h'
        | src s =>
          cases hpo : env.playOk with
          | false =>
            simp [runEvents, player_loop_iter, play_source, hpo]
          | true =>
            cases hnp : env.npSendOk with
            | false =>
              simp [runEvents, player_loop_iter, play_source, hpo, hnp, putsOf]
            | true =>
              cases hdo : env.deleteOutcome with
              | otherErr =>
                simp [runEvents, player_loop_iter, play_source, hpo, hnp, hdo, putsOf]
              | ok =>
                simp [runEvents, player_loop_iter, play_source, hpo, hnp, hdo, putsOf]
                exact ih _ h'
              | httpErr =>
                simp [runEvents, player_loop_iter, play_source, hpo, hnp, hdo, putsOf]
                exact ih _ h'

end LoopLemmas

/-- C1: tracks start in exactly the order they were enqueued.  `play_`
appends with `queue.put` (modelled by `GuildEvent.put`, tail append), the
loop removes with `queue.get` (head removal), and over every interleaving
of enqueues with loop iterations whose resolutions succeed, the sequence
of started tracks is a prefix of the enqueue sequence: no reordering, no
prioritisation, no skip. -/
theorem C1_fifo_order (evts : List GuildEvent) (h : allRegatherOk evts = true) :
    (runEvents newMusicPlayer evts).started <+: putsOf evts := by
  simpa [newMusicPlayer] using runEvents_fifo evts newMusicPlayer h

/-- Environment of a fully successful loop iteration. -/
def goodEnv : LoopEnv :=
  { waited := 0, regatherOk := true, errMsg := "", errSendOk := true,
    playOk := true, npSendOk := true, npMsgId := 7, deleteOutcome := DeleteOutcome.ok }

/-- Unresolved track A as `play_` enqueues it. -/
def trackA : QueueItem :=
  QueueItem.dict { webpage_url := "urlA", requester := "alice", title := "A" }

/-- Unresolved track B as `play_` enqueues it. -/
def trackB : QueueItem :=
  QueueItem.dict { webpage_url := "urlB", requester := "bob", title := "B" }

/-- Trace enqueueing A then B and then running two good iterations. -/
def fifoTrace : List GuildEvent :=
  [GuildEvent.put trackA, GuildEvent.put trackB,
   GuildEvent.iter goodEnv, GuildEvent.iter goodEnv]

/-- Witness for C1: with tracks A and B enqueued in that order and two
successful iterations, the started sequence is a prefix of the enqueue
sequence. -/
theorem C1_fifo_order_witness :
    allRegatherOk fifoTrace = true
      ∧ (runEvents newMusicPlayer fifoTrace).started <+: putsOf fifoTrace :=
  ⟨by decide, C1_fifo_order fifoTrace (by decide)⟩

/-- Collaborator sends and deletes of one iteration succeed (or fail only
with the swallowed `HTTPException` on delete); resolution may still fail. -/
def envSafe (env : LoopEnv) : Bool :=
  env.errSendOk && env.playOk && env.npSendOk
    && !(env.deleteOutcome == DeleteOutcome.otherErr)

/-- Run status is a coroutine-killing exception. -/
def isCrash : RunStatus → Bool
  | RunStatus.crashed _ => true
  | _ => false

/-- Environment with a failing now-playing `channel.send` and everything
else succeeding. -/
def npSendFailEnv : LoopEnv :=
  { waited := 0, regatherOk := true, errMsg := "", errSendOk := true,
    playOk := true, npSendOk := false, npMsgId := 0, deleteOutcome := DeleteOutcome.ok }

/-- Player holding one unresolved track. -/
def playerOneTrack : MusicPlayer :=
  { queue := [trackA], np := none, volume := 1/2, current := none }

/-- C2 counterexample: an iteration whose queue holds a track, whose
resolution and transport start succeed, but whose now-playing
`channel.send` (main.py line 152, wrapped in no try/except) raises, kills
the whole loop: the run ends `crashed` although no inactivity timeout
occurred and no stop was issued — a category (c) notification error DOES
terminate the PlayerLoop. -/
theorem C2_np_send_crash_counterexample :
    npSendFailEnv.waited < inactivityDeadline
      ∧ (player_loop_run playerOneTrack [npSendFailEnv]).status
          = RunStatus.crashed "np-send"
      ∧ (player_loop_run playerOneTrack [npSendFailEnv]).destroys = 0 := by
  decide

/-- Iteration-level safety: when the error-report send, the transport
start, the now-playing send all succeed and a delete failure is at worst
`HTTPException`, no iteration crashes, whatever the resolution outcome. -/
theorem iter_envSafe_no_crash (p : MusicPlayer) (env : LoopEnv)
    (h : envSafe env = true) :
    ∀ w, (player_loop_iter p env).status ≠ IterStatus.crashed w := by
  intro w
  have h' := h
  simp only [envSafe, Bool.and_eq_true, Bool.not_eq_true', beq_eq_false_iff_ne, ne_eq] at h'
  obtain ⟨⟨⟨he, hp⟩, hn⟩, hd⟩ := h'
  obtain ⟨q, np, vol, cur⟩ := p
  cases q with
  | nil =>
    by_cases ht : inactivityDeadline ≤ env.waited <;> simp [player_loop_iter, ht]
  | cons item q' =>
    cases item with
    | dict d =>
      cases hr : env.regatherOk with
      | false => simp [player_loop_iter, hr, he]
      | true =>
        cases hdo : env.deleteOutcome with
        | otherErr => exact absurd hdo hd
        | ok => simp [player_loop_iter, play_source, hr, hp, hn, hdo]
        | httpErr => simp [player_loop_iter, play_source, hr, hp, hn, hdo]
    | src s =>
      cases hdo : env.deleteOutcome with
      | otherErr => exact absurd hdo hd
      | ok => simp [player_loop_iter, play_source, hp, hn, hdo]
      | httpErr => simp [player_loop_iter, play_source, hp, hn, hdo]

/-- C2 amended: resolution failures and `HTTPException` during the
now-playing delete never terminate the loop; but an exception in the
error-report send, the transport `play` call, the now-playing send, or a
non-HTTPException delete does.  Hence when all channel sends and the
transport start succeed (and deletes fail at worst with `HTTPException`),
the loop never crashes: it ends only by inactivity timeout or keeps
iterating, whatever the resolution outcomes. -/
theorem C2_loop_survives_safe_sends (p : MusicPlayer) (envs : List LoopEnv)
    (h : ∀ env ∈ envs, envSafe env = true) :
    isCrash (player_loop_run p envs).status = false := by
  induction envs generalizing p with
  | nil => simp [player_loop_run, isCrash]
  | cons env rest ih =>
    have he : envSafe env = true := h env (by simp)
    have hrest : ∀ e ∈ rest, envSafe e = true := fun e hm => h e (by simp [hm])
    simp only [player_loop_run]
    cases hs : (player_loop_iter p env).status with
    | ok => simpa [hs] using ih (player_loop_iter p env).player hrest
    | blocked => simp [hs, isCrash]
    | destroyed => simp [hs, isCrash]
    | crashed w => exact absurd hs (iter_envSafe_no_crash p env he w)

/-- Witness for C2 (amended) on a concrete run of two safe iterations. -/
theorem C2_loop_survives_safe_sends_witness :
    (∀ env ∈ [goodEnv, goodEnv], envSafe env = true)
      ∧ isCrash (player_loop_run playerOneTrack [goodEnv, goodEnv]).status = false :=
  ⟨by decide,
    C2_loop_survives_safe_sends playerOneTrack [goodEnv, goodEnv] (by decide)⟩

/-- C3: when resolution of the dequeued item fails, the loop reports the
error to the originating channel and `continue`s (main.py lines 141-146):
across the failure and a following successful iteration the run stays
alive, `destroy` never fires (so the registry entry is untouched — only
`destroy`/`cleanup` removes it), the next queued item is the one that
starts, and the first posted message is the error report. -/
theorem C3_resolution_failure_continues (p : MusicPlayer) (d : TrackData)
    (i2 : QueueItem) (rest2 : List QueueItem) (env env2 : LoopEnv)
    (hq : p.queue = QueueItem.dict d :: i2 :: rest2)
    (h1 : env.regatherOk = false) (h2 : env.errSendOk = true)
    (e1 : env2.regatherOk = true) (e2 : env2.playOk = true)
    (e3 : env2.npSendOk = true) (e4 : env2.deleteOutcome ≠ DeleteOutcome.otherErr) :
    (player_loop_run p [env, env2]).status = RunStatus.alive
      ∧ (player_loop_run p [env, env2]).destroys = 0
      ∧ (player_loop_run p [env, env2]).started = [i2]
      ∧ (player_loop_run p [env, env2]).msgs.head?
          = some (MsgEvent.errorReport env.errMsg) := by
  obtain ⟨q, np, vol, cur⟩ := p
  simp only at hq
  subst hq
  cases i2 with
  | dict d2 =>
    cases hdo : env2.deleteOutcome with
    | otherErr => exact absurd hdo e4
    | ok =>
      refine ⟨?_, ?_, ?_, ?_⟩ <;>
        simp [player_loop_run, player_loop_iter, play_source, h1, h2, e1, e2, e3, hdo]
    | httpErr =>
      refine ⟨?_, ?_, ?_, ?_⟩ <;>
        simp [player_loop_run, player_loop_iter, play_source, h1, h2, e1, e2, e3, hdo]
  | src s2 =>
    cases hdo : env2.deleteOutcome with
    | otherErr => exact absurd hdo e4
    | ok =>
      refine ⟨?_, ?_, ?_, ?_⟩ <;>
        simp [player_loop_run, player_loop_iter, play_source, h1, h2, e2, e3, hdo]
    | httpErr =>
      refine ⟨?_, ?_, ?_, ?_⟩ <;>
        simp [player_loop_run, player_loop_iter, play_source, h1, h2, e2, e3, hdo]

/-- Environment whose resolution fails but whose error report succeeds. -/
def badResolveEnv : LoopEnv :=
  { waited := 0, regatherOk := false, errMsg := "DownloadError", errSendOk := true,
    playOk := true, npSendOk := true, npMsgId := 1, deleteOutcome := DeleteOutcome.ok }

/-- Player holding two unresolved tracks A and B. -/
def playerTwoTracks : MusicPlayer :=
  { queue := [trackA, trackB], np := none, volume := 1/2, current := none }

/-- Witness for C3: track A fails to resolve, the error is reported, and
track B still plays in the very next iteration. -/
theorem C3_resolution_failure_continues_witness :
    playerTwoTracks.queue
        = QueueItem.dict { webpage_url := "urlA", requester := "alice", title := "A" }
          :: trackB :: []
      ∧ badResolveEnv.regatherOk = false
      ∧ badResolveEnv.errSendOk = true
      ∧ goodEnv.regatherOk = true
      ∧ goodEnv.playOk = true
      ∧ goodEnv.npSendOk = true
      ∧ goodEnv.deleteOutcome ≠ DeleteOutcome.otherErr
      ∧ ((player_loop_run playerTwoTracks [badResolveEnv, goodEnv]).status = RunStatus.alive
        ∧ (player_loop_run playerTwoTracks [badResolveEnv, goodEnv]).destroys = 0
        ∧ (player_loop_run playerTwoTracks [badResolveEnv, goodEnv]).started = [trackB]
        ∧ (player_loop_run playerTwoTracks [badResolveEnv, goodEnv]).msgs.head?
            = some (MsgEvent.errorReport badResolveEnv.errMsg)) :=
  ⟨by decide, by decide, by decide, by decide, by decide, by decide, by decide,
    C3_resolution_failure_continues playerTwoTracks
      { webpage_url := "urlA", requester := "alice", title := "A" }
      trackB [] badResolveEnv goodEnv
      (by decide) (by decide) (by decide) (by decide) (by decide) (by decide) (by decide)⟩

/-- Lookup after filtering a guild's binding out always misses. -/
theorem lookup_filter_out (l : List (Nat × PlayerInst)) (g : Nat) :
    (l.filter (fun e => !(e.1 == g))).lookup g = none := by
  induction l with
  | nil => rfl
  | cons e t ih =>
    by_cases hg : e.1 = g
    · simp [List.filter_cons, hg, ih]
    · simp only [List.filter_cons]
      have hb : (e.1 == g) = false := beq_eq_false_iff_ne.mpr hg
      simp [hb, List.lookup, beq_eq_false_iff_ne.mpr (Ne.symm hg), ih]

/-- C4: when the queue is empty and `queue.get` has waited at least the
300-unit inactivity deadline, the run transitions to `Destroyed` exactly
once (`destroys = 1`), starts nothing, posts nothing, and consumes no
further iteration — and `cleanup` removes the guild's registry entry
(idempotently) and disconnects its voice client. -/
theorem C4_timeout_destroys_once (p : MusicPlayer) (env : LoopEnv)
    (envs : List LoopEnv) (cog : Cog) (vc : Option VoiceClient) (g : Nat)
    (h1 : p.queue = []) (h2 : inactivityDeadline ≤ env.waited) :
    (player_loop_run p (env :: envs)).status = RunStatus.destroyed
      ∧ (player_loop_run p (env :: envs)).destroys = 1
      ∧ (player_loop_run p (env :: envs)).started = []
      ∧ (player_loop_run p (env :: envs)).msgs = []
      ∧ (cleanup cog vc g).1.players.lookup g = none
      ∧ (cleanup cog vc g).2.1 = none
      ∧ (cleanup cog vc g).2.2
          = (if vc.isSome then [TransportOp.disconnect] else []) := by
  obtain ⟨q, np, vol, cur⟩ := p
  simp only at h1
  subst h1
  refine ⟨?_, ?_, ?_, ?_, ?_, ?_, ?_⟩
  · simp [player_loop_run, player_loop_iter, h2]
  · simp [player_loop_run, player_loop_iter, h2]
  · simp [player_loop_run, player_loop_iter, h2]
  · simp [player_loop_run, player_loop_iter, h2]
  · exact lookup_filter_out cog.players g
  · rfl
  · cases vc <;> rfl

/-- Environment in which the empty queue has waited out the deadline. -/
def timeoutEnv : LoopEnv :=
  { waited := 300, regatherOk := true, errMsg := "", errSendOk := true,
    playOk := true, npSendOk := true, npMsgId := 0, deleteOutcome := DeleteOutcome.ok }

/-- Connected, idle voice client. -/
def idleVC : VoiceClient :=
  { channel := 5, connected := true, playing := false, paused := false, source := none }

/-- Registry holding guild 1's player. -/
def cogWithPlayer : Cog :=
  { players := [(1, { instId := 0, st := newMusicPlayer })], nextInstId := 1 }

/-- Witness for C4: a fresh (empty-queue) player timing out destroys once,
and cleanup of guild 1 empties the registry and disconnects. -/
theorem C4_timeout_destroys_once_witness :
    newMusicPlayer.queue = []
      ∧ inactivityDeadline ≤ timeoutEnv.waited
      ∧ ((player_loop_run newMusicPlayer [timeoutEnv]).status = RunStatus.destroyed
        ∧ (player_loop_run newMusicPlayer [timeoutEnv]).destroys = 1
        ∧ (player_loop_run newMusicPlayer [timeoutEnv]).started = []
        ∧ (player_loop_run newMusicPlayer [timeoutEnv]).msgs = []
        ∧ (cleanup cogWithPlayer (some idleVC) 1).1.players.lookup 1 = none
        ∧ (cleanup cogWithPlayer (some idleVC) 1).2.1 = none
        ∧ (cleanup cogWithPlayer (some idleVC) 1).2.2
            = (if (some idleVC).isSome then [TransportOp.disconnect] else [])) :=
  ⟨by decide, by decide,
    C4_timeout_destroys_once newMusicPlayer timeoutEnv [] cogWithPlayer
      (some idleVC) 1 (by decide) (by decide)⟩

section VolumeAndCommands

attribute [local semireducible] Rat.add Rat.mul Rat.inv Rat.sub

/-- Source currently streaming at the default volume. -/
def srcPlaying : YTDLSource := { title := "A", requester := "alice", volume := 1/2 }

/-- Connected voice client with a playing source. -/
def vcPlaying : VoiceClient :=
  { channel := 5, connected := true, playing := true, paused := false,
    source := some srcPlaying }

/-- Context of a guild with a track playing. -/
def ctxPlaying : Ctx :=
  { guildId := 1, author := "alice", authorVoiceChannel := some 5,
    voiceClient := some vcPlaying }

/-- C6: evaluation of `change_volume` at the failing input 100.5.  The
claim (and the command's own docstring, "must be between 1 and 100")
demands rejection of every volume outside (0, 100], but the guard
`0 < vol < 101` on a float accepts 100.5: the command replies success,
stores 1.005 as the guild default and pushes 1.005 onto the live stream —
state mutation on an input the claim says is rejected. -/
theorem C6_guard_accepts_100_point_5 :
    ¬ ((201:Rat)/2 ≤ 100)
      ∧ (change_volume cogWithPlayer ctxPlaying (201/2)).replies
          = [Reply.msg (setVolumeText "alice")]
      ∧ storedVolume (change_volume cogWithPlayer ctxPlaying (201/2)).cog 1
          = some (201/200)
      ∧ liveSourceVolume (change_volume cogWithPlayer ctxPlaying (201/2)).ctx
          = some (201/200) := by
  decide

/-- A `get_player` call always leaves the guild registered, with exactly
the player it returned. -/
theorem get_player_registers (cog : Cog) (g : Nat) :
    (get_player cog g).2.players.lookup g = some (get_player cog g).1 := by
  cases h : cog.players.lookup g <;> simp [get_player, h, List.lookup]

/-- Rewriting a registered binding makes lookup return the new player. -/
theorem lookup_setPlayer (l : List (Nat × PlayerInst)) (g : Nat) (q p : PlayerInst)
    (h : l.lookup g = some q) :
    (l.map (fun e => if e.1 = g then (g, p) else e)).lookup g = some p := by
  induction l with
  | nil => simp [List.lookup] at h
  | cons e t ih =>
    obtain ⟨k, v⟩ := e
    simp only [List.map_cons]
    by_cases hg : k = g
    · subst hg
      rw [show (if ((k, v) : Nat × PlayerInst).1 = k then (k, p) else (k, v)) = (k, p)
        from if_pos rfl]
      simp [List.lookup]
    · have hb : (g == k) = false := beq_eq_false_iff_ne.mpr (Ne.symm hg)
      have h' : t.lookup g = some q := by simpa [List.lookup, hb] using h
      rw [show (if ((k, v) : Nat × PlayerInst).1 = g then (g, p) else (k, v)) = (k, v)
        from if_neg hg]
      simp [List.lookup, hb, ih h']

/-- After `get_player` followed by `setPlayer`, lookup yields the stored
player. -/
theorem lookup_setPlayer_after_get (cog : Cog) (g : Nat) (p : PlayerInst) :
    (setPlayer (get_player cog g).2 g p).players.lookup g = some p := by
  unfold setPlayer
  exact lookup_setPlayer _ _ _ p (get_player_registers cog g)

/-- Started tracks play at the guild volume stored when their iteration
began: `player_loop` line 148 overwrites the source's volume with
`self.volume` just before `play`. -/
theorem startedSrc_volume (p : MusicPlayer) (env : LoopEnv) (s2 : YTDLSource)
    (h : (player_loop_iter p env).startedSrc = some s2) : s2.volume = p.volume := by
  obtain ⟨q, np, vol, cur⟩ := p
  cases q with
  | nil =>
    by_cases ht : inactivityDeadline ≤ env.waited <;>
      simp [player_loop_iter, ht] at h
  | cons item q' =>
    cases item with
    | dict d =>
      cases hr : env.regatherOk with
      | false => cases he : env.errSendOk <;> simp [player_loop_iter, hr, he] at h
      | true =>
        cases hp : env.playOk with
        | false => simp [player_loop_iter, play_source, hr, hp] at h
        | true =>
          cases hn : env.npSendOk with
          | false =>
            simp [player_loop_iter, play_source, hr, hp, hn] at h
            simp [← h]
          | true =>
            cases hdo : env.deleteOutcome <;>
              simp [player_loop_iter, play_source, hr, hp, hn, hdo] at h <;>
              simp [← h]
    | src s =>
      cases hp : env.playOk with
      | false => simp [player_loop_iter, play_source, hp] at h
      | true =>
        cases hn : env.npSendOk with
        | false =>
          simp [player_loop_iter, play_source, hp, hn] at h
          simp [← h]
        | true =>
          cases hdo : env.deleteOutcome <;>
            simp [player_loop_iter, play_source, hp, hn, hdo] at h <;>
            simp [← h]

/-- C7: an accepted volume command issued while a track plays sets the live
stream's volume to v/100 in place (no transport call is issued and the
transport still reports the same playing state — playback is not
interrupted), stores v/100 as the guild default, and every track whose
playback starts later from that stored state starts at exactly v/100. -/
theorem C7_set_volume_applies (cog : Cog) (ctx : Ctx) (vc : VoiceClient)
    (s : YTDLSource) (vol : Rat) (env : LoopEnv) (p2 : PlayerInst) (s2 : YTDLSource)
    (h1 : ctx.voiceClient = some vc) (h2 : vc.connected = true)
    (h3 : vc.source = some s) (h4 : 0 < vol) (h5 : vol < 101)
    (h6 : (change_volume cog ctx vol).cog.players.lookup ctx.guildId = some p2)
    (h7 : (player_loop_iter p2.st env).startedSrc = some s2) :
    liveSourceVolume (change_volume cog ctx vol).ctx = some (vol / 100)
      ∧ (change_volume cog ctx vol).ops = []
      ∧ ((change_volume cog ctx vol).ctx.voiceClient.map VoiceClient.playing)
          = some vc.playing
      ∧ p2.st.volume = vol / 100
      ∧ s2.volume = vol / 100 := by
  simp only [change_volume, h1, h2, h3, Bool.true_eq_false, if_false, ite_false] at h6 ⊢
  rw [if_pos (And.intro h4 h5)] at h6 ⊢
  rw [lookup_setPlayer_after_get] at h6
  have hp2 : p2.st.volume = vol / 100 := by
    have he := Option.some.inj h6
    rw [← he]
  refine ⟨by simp [liveSourceVolume], rfl, by simp, hp2, ?_⟩
  rw [startedSrc_volume p2.st env s2 h7, hp2]

/-- Registry of guild 1 whose player holds one queued track. -/
def cogPlaying : Cog :=
  { players := [(1, { instId := 0, st := playerOneTrack })], nextInstId := 1 }

/-- Player state expected after setting the volume to 70. -/
def p2After : PlayerInst :=
  { instId := 0,
    st := { queue := [trackA], np := none, volume := 70/100, current := none } }

/-- Source expected to start playing after the volume change. -/
def s2After : YTDLSource := { title := "A", requester := "alice", volume := 70/100 }

/-- Witness for C7 at volume 70 while track A plays. -/
theorem C7_set_volume_applies_witness :
    ctxPlaying.voiceClient = some vcPlaying
      ∧ vcPlaying.connected = true
      ∧ vcPlaying.source = some srcPlaying
      ∧ (0:Rat) < 70
      ∧ (70:Rat) < 101
      ∧ (change_volume cogPlaying ctxPlaying 70).cog.players.lookup ctxPlaying.guildId
          = some p2After
      ∧ (player_loop_iter p2After.st goodEnv).startedSrc = some s2After
      ∧ (liveSourceVolume (change_volume cogPlaying ctxPlaying 70).ctx = some (70 / 100)
        ∧ (change_volume cogPlaying ctxPlaying 70).ops = []
        ∧ ((change_volume cogPlaying ctxPlaying 70).ctx.voiceClient.map VoiceClient.playing)
            = some vcPlaying.playing
        ∧ p2After.st.volume = 70 / 100
        ∧ s2After.volume = 70 / 100) :=
  ⟨by decide, by decide, by decide, by decide, by decide, by decide, by decide,
    C7_set_volume_applies cogPlaying ctxPlaying vcPlaying srcPlaying 70 goodEnv
      p2After s2After
      (by decide) (by decide) (by decide) (by decide) (by decide) (by decide) (by decide)⟩

/-- Iterated `increase` commands threading registry and context. -/
def increase_times : Nat → Cog × Ctx → Cog × Ctx
  | 0, st => st
  | Nat.succ n, st =>
    let o := increase_volume st.1 st.2
    increase_times n (o.cog, o.ctx)

/-- Context of a guild connected to voice with nothing playing. -/
def ctxIdle : Ctx :=
  { guildId := 1, author := "alice", authorVoiceChannel := some 5,
    voiceClient := some idleVC }

set_option maxRecDepth 100000

/-- C8 counterexample: the program performs IEEE binary64 additions, and
`0.05` is not representable, so the claimed exactness fails: already the
first increase from the default 0.5 does not store exactly 0.55 (it stores
the double 0.55000000000000004440…), and after five increases the stored
guild volume is the double 0.7500000000000002220… — not exactly 0.75, and
each step added slightly more than 5 points. -/
theorem C8_not_exactly_75 :
    storedVolume (increase_times 5 (cogWithPlayer, ctxIdle)).1 1 ≠ some (3/4)
      ∧ storedVolume (increase_times 1 (cogWithPlayer, ctxIdle)).1 1 ≠ some (11/20) := by
  decide

/-- C8 amended: from the default stored volume 0.5, each `increase`
command adds the binary64 double nearest 0.05 (3602879701896397/2^56) with
the sum rounded to nearest-even, and nothing renormalises or clamps the
result: the stored guild volume climbs strictly monotonically through the
exact doubles 0.55000000000000004440…, 0.6000000000000001…,
0.6500000000000001…, 0.7000000000000002… and ends at 0.7500000000000002…
(= 6755399441055746/2^53), which exceeds the ideal 3/4 by exactly 2^-52 —
approximately 75% but not exactly. -/
theorem C8_five_increases_float_trace :
    storedVolume cogWithPlayer 1 = some (1/2)
      ∧ float005 = 3602879701896397 / pow2 56
      ∧ storedVolume (increase_times 1 (cogWithPlayer, ctxIdle)).1 1
          = some (4953959590107546 / pow2 53)
      ∧ storedVolume (increase_times 2 (cogWithPlayer, ctxIdle)).1 1
          = some (5404319552844596 / pow2 53)
      ∧ storedVolume (increase_times 3 (cogWithPlayer, ctxIdle)).1 1
          = some (5854679515581646 / pow2 53)
      ∧ storedVolume (increase_times 4 (cogWithPlayer, ctxIdle)).1 1
          = some (6305039478318696 / pow2 53)
      ∧ storedVolume (increase_times 5 (cogWithPlayer, ctxIdle)).1 1
          = some (6755399441055746 / pow2 53)
      ∧ (1:ℚ)/2 < 4953959590107546 / pow2 53
      ∧ (4953959590107546:ℚ) / pow2 53 < 5404319552844596 / pow2 53
      ∧ (5404319552844596:ℚ) / pow2 53 < 5854679515581646 / pow2 53
      ∧ (5854679515581646:ℚ) / pow2 53 < 6305039478318696 / pow2 53
      ∧ (6305039478318696:ℚ) / pow2 53 < 6755399441055746 / pow2 53
      ∧ (6755399441055746:ℚ) / pow2 53 - 3/4 = 1 / pow2 52 := by
  decide

/-- Context whose guild has voice available but no voice client yet. -/
def ctxNoVC : Ctx :=
  { guildId := 1, author := "alice", authorVoiceChannel := some 5, voiceClient := none }

/-- Empty registry. -/
def emptyCog : Cog := { players := [], nextInstId := 0 }

/-- C9 counterexample: a successful `connect` (joins channel 5, raises
nothing) leaves the registry WITHOUT the guild — `connect` never calls
`get_player` — while the `queue` command on a connected guild with no
entry DOES create one.  Both halves of the claim fail: `connect` does not
cause the registry entry to exist, and commands other than `play`/`connect`
do create players. -/
theorem C9_connect_creates_no_player :
    (connect_ emptyCog ctxNoVC none true true).raised = none
      ∧ (connect_ emptyCog ctxNoVC none true true).ops = [TransportOp.connect 5]
      ∧ (connect_ emptyCog ctxNoVC none true true).cog.players.lookup 1 = none
      ∧ ((queue_info emptyCog ctxIdle).cog.players.lookup 1).isSome = true := by
  decide

/-- C9 amended: the guild's player comes into existence on the first
command that calls `get_player`: `play` (creating it even when the later
extraction fails), `queue`, `nowplaying`, `volume` with a valid argument,
`increase` and `decrease` (each behind its connected-voice guard) — and on
no other: `connect` leaves the registry untouched on every path, as do
`pause`, `resume` and `skip`, while `stop` only ever removes. -/
theorem C9_player_created_by_get_player_commands
    (cog : Cog) (ctx : Ctx) (vc : VoiceClient)
    (cha : Option Nat) (moveOk connectOk : Bool)
    (penv : PlayEnv) (delOut : DeleteOutcome) (npId : Nat) (vol : Rat)
    (h0 : cog.players.lookup ctx.guildId = none)
    (hvc : ctx.voiceClient = some vc) (hconn : vc.connected = true)
    (hvol1 : 0 < vol) (hvol2 : vol < 101) :
    (connect_ cog ctx cha moveOk connectOk).cog = cog
      ∧ (pause_ cog ctx).cog = cog
      ∧ (resume_ cog ctx).cog = cog
      ∧ (skip_ cog ctx).cog = cog
      ∧ (stop_ cog ctx).cog.players.lookup ctx.guildId = none
      ∧ ((play_ cog ctx penv moveOk connectOk).cog.players.lookup ctx.guildId).isSome = true
      ∧ ((queue_info cog ctx).cog.players.lookup ctx.guildId).isSome = true
      ∧ ((now_playing_ cog ctx delOut npId).cog.players.lookup ctx.guildId).isSome = true
      ∧ ((change_volume cog ctx vol).cog.players.lookup ctx.guildId).isSome = true
      ∧ ((increase_volume cog ctx).cog.players.lookup ctx.guildId).isSome = true
      ∧ ((decrease_volume cog ctx).cog.players.lookup ctx.guildId).isSome = true := by
  refine ⟨?_, ?_, ?_, ?_, ?_, ?_, ?_, ?_, ?_, ?_, ?_⟩
  · cases hopt : cha.orElse (fun _ => ctx.authorVoiceChannel) with
    | none => simp [connect_, hopt]
    | some ch =>
      by_cases hch : vc.channel = ch
      · simp [connect_, hopt, hvc, hch]
      · cases hm : moveOk <;> simp [connect_, hopt, hvc, hch, hm]
  · cases hp : vc.playing <;> cases hpa : vc.paused <;> simp [pause_, hvc, hp, hpa]
  · cases hpa : vc.paused <;> simp [resume_, hvc, hconn, hpa]
  · cases hp : vc.playing <;> cases hpa : vc.paused <;> simp [skip_, hvc, hconn, hp, hpa]
  · simp [stop_, hvc, hconn, cleanup, lookup_filter_out]
  · cases hex : penv.extractOk <;>
      simp [play_, hvc, hex, lookup_setPlayer_after_get, get_player_registers]
  · by_cases hq : (get_player cog ctx.guildId).1.st.queue.isEmpty <;>
      simp [queue_info, hvc, hconn, hq, get_player_registers]
  · cases hcur : (get_player cog ctx.guildId).1.st.current with
    | none => simp [now_playing_, hvc, hconn, hcur, get_player_registers]
    | some c =>
      cases delOut <;> cases hsrc : vc.source <;>
        simp [now_playing_, hvc, hconn, hcur, hsrc, get_player_registers,
          lookup_setPlayer_after_get]
  · simp [change_volume, hvc, hconn, hvol1, hvol2, lookup_setPlayer_after_get]
  · simp [increase_volume, hvc, hconn, lookup_setPlayer_after_get]
  · simp [decrease_volume, hvc, hconn, lookup_setPlayer_after_get]

/-- Extraction environment returning track A's metadata. -/
def playEnvA : PlayEnv :=
  { extractOk := true,
    track := { webpage_url := "urlA", requester := "alice", title := "A" } }

/-- Witness for C9 (amended) on an empty registry with a connected idle
voice client. -/
theorem C9_player_created_by_get_player_commands_witness :
    emptyCog.players.lookup ctxIdle.guildId = none
      ∧ ctxIdle.voiceClient = some idleVC
      ∧ idleVC.connected = true
      ∧ (0:Rat) < 70
      ∧ (70:Rat) < 101
      ∧ ((connect_ emptyCog ctxIdle none true true).cog = emptyCog
        ∧ (pause_ emptyCog ctxIdle).cog = emptyCog
        ∧ (resume_ emptyCog ctxIdle).cog = emptyCog
        ∧ (skip_ emptyCog ctxIdle).cog = emptyCog
        ∧ (stop_ emptyCog ctxIdle).cog.players.lookup ctxIdle.guildId = none
        ∧ ((play_ emptyCog ctxIdle playEnvA true true).cog.players.lookup
            ctxIdle.guildId).isSome = true
        ∧ ((queue_info emptyCog ctxIdle).cog.players.lookup ctxIdle.guildId).isSome = true
        ∧ ((now_playing_ emptyCog ctxIdle DeleteOutcome.ok 9).cog.players.lookup
            ctxIdle.guildId).isSome = true
        ∧ ((change_volume emptyCog ctxIdle 70).cog.players.lookup
            ctxIdle.guildId).isSome = true
        ∧ ((increase_volume emptyCog ctxIdle).cog.players.lookup
            ctxIdle.guildId).isSome = true
        ∧ ((decrease_volume emptyCog ctxIdle).cog.players.lookup
            ctxIdle.guildId).isSome = true) :=
  ⟨by decide, by decide, by decide, by decide, by decide,
    C9_player_created_by_get_player_commands emptyCog ctxIdle idleVC none true true
      playEnvA DeleteOutcome.ok 9 70
      (by decide) (by decide) (by decide) (by decide) (by decide)⟩

/-- Paused voice client: in discord.py a paused player reports
`is_playing() = false` and `is_paused() = true`. -/
def vcPaused : VoiceClient :=
  { channel := 5, connected := true, playing := false, paused := true,
    source := some srcPlaying }

/-- Context of a guild whose playback is paused. -/
def ctxPaused : Ctx :=
  { guildId := 1, author := "bob", authorVoiceChannel := some 5,
    voiceClient := some vcPaused }

/-- C10 counterexample: invoking `pause` while already paused is NOT
silent.  A paused transport reports `is_playing() = false`, so the command
falls into the `not vc.is_playing()` guard (main.py line 289) and replies
with the not-playing message; the silent `elif vc.is_paused()` branch is
unreachable in the paused state. -/
theorem C10_pause_while_paused_replies :
    vcPaused.paused = true
      ∧ vcPaused.playing = false
      ∧ (pause_ emptyCog ctxPaused).replies = [Reply.msg notPlayingText] := by
  decide

/-- C10 amended: a redundant `pause` while paused issues no transport call
and mutates neither registry nor context, but — with the transport
reporting not-playing, as discord.py does while paused — it replies with
the not-playing message rather than returning silently (it would return
silently only if the transport reported playing and paused at once); a
redundant `resume` on a connected, unpaused client returns silently with
no transport call, no reply and no state change. -/
theorem C10_redundant_pause_resume (cog : Cog) (ctx : Ctx) (vc : VoiceClient)
    (hvc : ctx.voiceClient = some vc) :
    (vc.paused = true → vc.playing = false →
      (pause_ cog ctx).replies = [Reply.msg notPlayingText]
        ∧ (pause_ cog ctx).ops = []
        ∧ (pause_ cog ctx).cog = cog
        ∧ (pause_ cog ctx).ctx = ctx)
      ∧ (vc.paused = true → vc.playing = true →
        (pause_ cog ctx).replies = []
          ∧ (pause_ cog ctx).ops = []
          ∧ (pause_ cog ctx).cog = cog
          ∧ (pause_ cog ctx).ctx = ctx)
      ∧ (vc.connected = true → vc.paused = false →
        (resume_ cog ctx).replies = []
          ∧ (resume_ cog ctx).ops = []
          ∧ (resume_ cog ctx).cog = cog
          ∧ (resume_ cog ctx).ctx = ctx) := by
  refine ⟨?_, ?_, ?_⟩ <;> intro hA hB <;> simp [pause_, resume_, hvc, hA, hB]

/-- Witness for C10 (amended) at the paused context. -/
theorem C10_redundant_pause_resume_witness :
    ctxPaused.voiceClient = some vcPaused
      ∧ ((vcPaused.paused = true → vcPaused.playing = false →
        (pause_ emptyCog ctxPaused).replies = [Reply.msg notPlayingText]
          ∧ (pause_ emptyCog ctxPaused).ops = []
          ∧ (pause_ emptyCog ctxPaused).cog = emptyCog
          ∧ (pause_ emptyCog ctxPaused).ctx = ctxPaused)
        ∧ (vcPaused.paused = true → vcPaused.playing = true →
          (pause_ emptyCog ctxPaused).replies = []
            ∧ (pause_ emptyCog ctxPaused).ops = []
            ∧ (pause_ emptyCog ctxPaused).cog = emptyCog
            ∧ (pause_ emptyCog ctxPaused).ctx = ctxPaused)
        ∧ (vcPaused.connected = true → vcPaused.paused = false →
          (resume_ emptyCog ctxPaused).replies = []
            ∧ (resume_ emptyCog ctxPaused).ops = []
            ∧ (resume_ emptyCog ctxPaused).cog = emptyCog
            ∧ (resume_ emptyCog ctxPaused).ctx = ctxPaused)) :=
  ⟨by decide, C10_redundant_pause_resume emptyCog ctxPaused vcPaused (by decide)⟩

end VolumeAndCommands

end LeBotMusicien
